import Mathlib

/-!
Shallow embedding of the price-intelligence subsystem of
`src/app.py` (Agrícola Montserrat dashboard): the weighted trend
forecaster (`predecir_precio_proxima_semana`), the day-of-week advisor
(`analizar_mejor_dia_compra`), the seasonal anomaly detector
(`detectar_patrones_estacionales`) and the period-over-period comparator
(`analizar_precios_historicos`, per-bucket part), together with theorems
checking the natural-language specification against this embedding.

Modelling conventions:
* pandas DataFrames of `(fecha, producto, precio_compra)` rows become
  `List Observacion`; prices are `ℚ` (the source computes in binary
  floating point; rationals are the exact counterpart for the decimal
  data this system handles, and no claim hinges on rounding of binary
  floats away from a comparison boundary).
* the single genuinely irrational quantity, `np.std`, is `Real.sqrt` of
  the rational population variance, so the three fields derived from it
  live in `ℝ`.
* IEEE division by zero (the source divides means without a zero guard)
  is modelled by `PyF`, a rational plus `inf`, `-inf`, `nan`, with the
  comparison and formatting behaviour of Python floats.
* `df.sort_values('fecha')` is modelled as a deterministic sort by date;
  the source's quicksort is unstable, so no theorem below depends on the
  relative order of equal dates.
-/

set_option allowUnsafeReducibility true

attribute [local semireducible] Rat.mul Rat.add Rat.sub Rat.div Rat.inv Rat.neg

/-- A calendar date, as carried by the `fecha` column. -/
structure Fecha where
  year : Int
  month : Nat
  day : Nat
deriving DecidableEq

/-- Days since 1970-01-01 in the proleptic Gregorian calendar
(Howard Hinnant's `days_from_civil`, written with floor division). -/
def diasDesdeCivil (f : Fecha) : Int :=
  let y : Int := if f.month ≤ 2 then f.year - 1 else f.year
  let era : Int := Int.fdiv y 400
  let yoe : Int := y - era * 400
  let mp : Int := ((f.month : Int) + 9) % 12
  let doy : Int := Int.fdiv (153 * mp + 2) 5 + (f.day : Int) - 1
  let doe : Int := yoe * 365 + Int.fdiv yoe 4 - Int.fdiv yoe 100 + doy
  era * 146097 + doe - 719468

/-- Weekday index of a date, Monday = 0 .. Sunday = 6
(pandas `dayofweek`); 1970-01-01 was a Thursday (index 3). -/
def indiceDia (f : Fecha) : Nat :=
  ((diasDesdeCivil f + 3) % 7).toNat

/-- English weekday name from the index (pandas `day_name()`). -/
def nombreDia (i : Nat) : String :=
  match i with
  | 0 => "Monday"
  | 1 => "Tuesday"
  | 2 => "Wednesday"
  | 3 => "Thursday"
  | 4 => "Friday"
  | 5 => "Saturday"
  | _ => "Sunday"

/-- `df['fecha'].dt.day_name()` applied to one date. -/
def diaSemanaEn (f : Fecha) : String := nombreDia (indiceDia f)

/-- One row of the historical price DataFrame: the three columns the
price-intelligence functions read (`fecha`, `producto`, `precio_compra`). -/
structure Observacion where
  fecha : Fecha
  producto : String
  precio_compra : ℚ
deriving DecidableEq

/-- `np.mean` / pandas `.mean()` of a list of values (callers below only
apply it to nonempty lists; on `[]` the `ℚ` convention `x / 0 = 0` stands
in for pandas' NaN, and no claim touches that case). -/
def promedio (xs : List ℚ) : ℚ := xs.sum / (xs.length : ℚ)

/-- Result of an IEEE-754 division of one exact (rational-valued) float
by another: finite, `inf`, `-inf`, or `nan`. -/
inductive PyF where
  | fin (q : ℚ)
  | pinf
  | ninf
  | nan
deriving DecidableEq

/-- Float division `a / b` as the source performs it without a zero
guard: `b ≠ 0` is exact; `b = 0` yields `±inf` or `nan` by IEEE-754. -/
def pyDiv (a b : ℚ) : PyF :=
  if b ≠ 0 then .fin (a / b)
  else if 0 < a then .pinf
  else if a < 0 then .ninf
  else .nan

/-- Multiplication of a division result by the positive constant 100. -/
def pyMul100 : PyF → PyF
  | .fin q => .fin (q * 100)
  | .pinf => .pinf
  | .ninf => .ninf
  | .nan => .nan

/-- Python `x > c` on a float: `inf > c` is true, `-inf > c` and
`nan > c` are false. -/
def PyF.gtB : PyF → ℚ → Bool
  | .fin q, c => decide (c < q)
  | .pinf, _ => true
  | .ninf, _ => false
  | .nan, _ => false

/-- Python `x < c` on a float. -/
def PyF.ltB : PyF → ℚ → Bool
  | .fin q, c => decide (q < c)
  | .pinf, _ => false
  | .ninf, _ => true
  | .nan, _ => false

/-- Floor of a rational, written so that it reduces in the kernel. -/
def pisoQ (q : ℚ) : Int := Int.fdiv q.num (q.den : Int)

/-- Round to the nearest integer, ties to even (Python float formatting). -/
def redondeoMitadPar (q : ℚ) : Int :=
  let f := pisoQ q
  let r := q - (f : ℚ)
  if r < 1/2 then f
  else if 1/2 < r then f + 1
  else if f % 2 = 0 then f else f + 1

/-- Python format `:.1f` of an exact finite value. -/
def formatoF1 (q : ℚ) : String :=
  let n := redondeoMitadPar (q * 10)
  let s := if n < 0 then "-" else ""
  let m := n.natAbs
  s ++ toString (m / 10) ++ "." ++ toString (m % 10)

/-- Python format `:.1f` of a possibly non-finite float. -/
def PyF.formato1 : PyF → String
  | .fin q => formatoF1 q
  | .pinf => "inf"
  | .ninf => "-inf"
  | .nan => "nan"

/-- Insert a thousands separator every three digits, on a reversed digit
list. -/
def agrupaMiles : List Char → List Char
  | a :: b :: c :: d :: rest => a :: b :: c :: ',' :: agrupaMiles (d :: rest)
  | l => l

/-- Python format `:,.0f` of an exact finite value. -/
def formatoMiles (q : ℚ) : String :=
  let n := redondeoMitadPar q
  let s := if n < 0 then "-" else ""
  s ++ String.mk ((agrupaMiles (toString n.natAbs).data.reverse).reverse)

/-- `df_historico[df_historico['producto'] == producto]`: the product
filter shared by all the analysis functions. -/
def dfProducto (s : List Observacion) (p : String) : List Observacion :=
  s.filter (fun r => r.producto == p)

/-- `df_prod.sort_values('fecha')`: sort ascending by date. -/
def ordenarPorFecha (l : List Observacion) : List Observacion :=
  l.insertionSort (fun a b => diasDesdeCivil a.fecha ≤ diasDesdeCivil b.fecha)

/-! ## Weighted trend forecaster (`predecir_precio_proxima_semana`) -/

/-- `df_prod['precio_compra'].tail(8).values` after
`df_prod.sort_values('fecha')`: the last up to 8 prices in date order. -/
def ultimosPrecios (s : List Observacion) (p : String) : List ℚ :=
  let precios := (ordenarPorFecha (dfProducto s p)).map (fun r => r.precio_compra)
  precios.drop (precios.length - 8)

/-- `np.array([1, 1.5, 2, 2.5, 3, 3.5, 4, 4.5])`, the weight sequence
(truncated to the window length before use). -/
def pesosBase : List ℚ := [1, 3/2, 2, 5/2, 3, 7/2, 4, 9/2]

/-- `np.average(ultimos_precios, weights=pesos)`: the weighted mean that
becomes `precio_estimado`. -/
def precioEstimadoDe (s : List Observacion) (p : String) : ℚ :=
  let u := ultimosPrecios s p
  let pesos := pesosBase.take u.length
  (List.zipWith (fun a b => a * b) u pesos).sum / pesos.sum

/-- `diferencia_pct = ((promedio_reciente - promedio_antiguo) /
promedio_antiguo) * 100`, performed on floats with no zero guard, so a
zero older mean yields `inf`, `-inf` or `nan`. -/
def diferenciaPctDe (s : List Observacion) (p : String) : PyF :=
  let u := ultimosPrecios s p
  let mitad := u.length / 2
  pyMul100 (pyDiv (promedio (u.drop mitad) - promedio (u.take mitad))
    (promedio (u.take mitad)))

/-- Trend label of the forecaster. -/
inductive Tendencia where
  | subida
  | bajada
  | estable
deriving DecidableEq

/-- The trend branch: `subida` when `diferencia_pct > 10`, `bajada` when
`< -10`, else `estable`; the `len(ultimos_precios) >= 4` test guards the
whole block in the source (its else-branch also gives `estable`). -/
def tendenciaDe (s : List Observacion) (p : String) : Tendencia :=
  if 4 ≤ (ultimosPrecios s p).length then
    if (diferenciaPctDe s p).gtB 10 then .subida
    else if (diferenciaPctDe s p).ltB (-10) then .bajada
    else .estable
  else .estable

/-- The squared `np.std(ultimos_precios)` (population variance: mean of
squared deviations from the mean). -/
def varianzaDe (s : List Observacion) (p : String) : ℚ :=
  let u := ultimosPrecios s p
  promedio (u.map (fun x => (x - promedio u) * (x - promedio u)))

/-- `desviacion = np.std(ultimos_precios)`. -/
noncomputable def desviacionDe (s : List Observacion) (p : String) : ℝ :=
  Real.sqrt ((varianzaDe s p : ℚ) : ℝ)

/-- `coef_variacion = (desviacion / precio_pred) * 100 if precio_pred > 0
else 100`, and `confianza = max(0, 100 - coef_variacion)`. -/
noncomputable def confianzaDe (s : List Observacion) (p : String) : ℝ :=
  let coef : ℝ :=
    if 0 < precioEstimadoDe s p then
      desviacionDe s p / ((precioEstimadoDe s p : ℚ) : ℝ) * 100
    else 100
  max 0 (100 - coef)

/-- The `sugerencia` message attached to the forecast. -/
def sugerenciaDe (s : List Observacion) (p : String) : String :=
  match tendenciaDe s p with
  | .subida =>
      "📈 Precio en tendencia alcista (+" ++ (diferenciaPctDe s p).formato1 ++
        "%). Considera comprar pronto antes que suba más."
  | .bajada =>
      "📉 Precio en tendencia bajista (" ++ (diferenciaPctDe s p).formato1 ++
        "%). Puedes esperar un poco para mejor precio."
  | .estable => "➡️ Precio estable. Buen momento para comprar según tus necesidades."

/-- The `prediccion` dictionary returned by
`predecir_precio_proxima_semana`.  `ultimo_precio` is `Option` because
the early-return dictionary carries no such key. -/
structure Prediccion where
  precio_estimado : ℚ
  confianza : ℝ
  rango_min : ℝ
  rango_max : ℝ
  tendencia : Tendencia
  sugerencia : String
  ultimo_precio : Option ℚ

/-- The initial / insufficient-data `prediccion` dictionary. -/
noncomputable def prediccionCero : Prediccion :=
  ⟨0, 0, 0, 0, .estable, "", none⟩

/-- `predecir_precio_proxima_semana(df_historico, producto)`
(src/app.py): moving-average forecast over the last up to 8 prices of
the product, with confidence band and trend label. -/
noncomputable def predecir_precio_proxima_semana
    (dfHistorico : List Observacion) (producto : String) : Prediccion :=
  if dfHistorico = [] then prediccionCero
  else if (dfProducto dfHistorico producto).length < 4 then prediccionCero
  else if (ultimosPrecios dfHistorico producto).length < 4 then prediccionCero
  else
    { precio_estimado := precioEstimadoDe dfHistorico producto
      confianza := confianzaDe dfHistorico producto
      rango_min := max 0 ((precioEstimadoDe dfHistorico producto : ℚ) -
        desviacionDe dfHistorico producto)
      rango_max := ((precioEstimadoDe dfHistorico producto : ℚ) : ℝ) +
        desviacionDe dfHistorico producto
      tendencia := tendenciaDe dfHistorico producto
      sugerencia := sugerenciaDe dfHistorico producto
      ultimo_precio := (ultimosPrecios dfHistorico producto).getLast? }

/-! ## Day-of-week advisor (`analizar_mejor_dia_compra`) -/

/-- The seven `day_name()` keys in the order pandas `groupby` yields
them (`sort=True` sorts the string keys lexicographically). -/
def nombresDiasOrdenados : List String :=
  ["Friday", "Monday", "Saturday", "Sunday", "Thursday", "Tuesday", "Wednesday"]

/-- `count` of the `groupby('dia_semana')` aggregation for one weekday. -/
def conteoDia (s : List Observacion) (p : String) (d : String) : Nat :=
  ((dfProducto s p).filter (fun r => diaSemanaEn r.fecha == d)).length

/-- `mean` of the `groupby('dia_semana')` aggregation for one weekday. -/
def promedioDia (s : List Observacion) (p : String) (d : String) : ℚ :=
  promedio (((dfProducto s p).filter (fun r => diaSemanaEn r.fecha == d)).map
    (fun r => r.precio_compra))

/-- `dias_validos`: the per-weekday `(mean, count)` rows that survive the
`count >= 2` filter, in groupby key order. -/
def diasValidos (s : List Observacion) (p : String) : List (String × ℚ × Nat) :=
  (nombresDiasOrdenados.filter (fun d => 2 ≤ conteoDia s p d)).map
    (fun d => (d, promedioDia s p d, conteoDia s p d))

/-- The `dias_es` Spanish translation table (`dias_es.get(dia, dia)`). -/
def diasEs (d : String) : String :=
  match d with
  | "Monday" => "Lunes"
  | "Tuesday" => "Martes"
  | "Wednesday" => "Miércoles"
  | "Thursday" => "Jueves"
  | "Friday" => "Viernes"
  | "Saturday" => "Sábado"
  | "Sunday" => "Domingo"
  | _ => d

/-- Python `min(items, key=...)`: the first element attaining the
minimal key (the accumulator is replaced only on a strict decrease). -/
def primeroMin {α : Type} (f : α → ℚ) : List α → Option α
  | [] => none
  | x :: xs => some (xs.foldl (fun acc y => if f y < f acc then y else acc) x)

/-- Python `max(items, key=...)`: the first element attaining the
maximal key. -/
def primeroMax {α : Type} (f : α → ℚ) : List α → Option α
  | [] => none
  | x :: xs => some (xs.foldl (fun acc y => if f acc < f y then y else acc) x)

/-- The `analisis` dictionary of `analizar_mejor_dia_compra`.
`mejor_dia` is `Option` (`None` in the source's base dictionary) and
`ahorro_potencial` is `Option` (the early-return dictionaries carry no
such key). -/
structure AnalisisDia where
  mejor_dia : Option String
  precio_promedio : List (String × ℚ)
  sugerencia : String
  ahorro_potencial : Option ℚ
deriving DecidableEq

/-- The initial / insufficient-data `analisis` dictionary. -/
def analisisDiaVacio : AnalisisDia := ⟨none, [], "", none⟩

/-- `analizar_mejor_dia_compra(df_historico, producto)` (src/app.py):
historical mean price per weekday, best and worst weekday among those
with at least two operations. -/
def analizar_mejor_dia_compra
    (dfHistorico : List Observacion) (producto : String) : AnalisisDia :=
  if dfHistorico = [] then analisisDiaVacio
  else if dfProducto dfHistorico producto = [] then analisisDiaVacio
  else
    let validos := diasValidos dfHistorico producto
    match primeroMin (fun x => x.2.1) validos, primeroMax (fun x => x.2.1) validos with
    | some mejor, some peor =>
      let ahorro := peor.2.1 - mejor.2.1
      let pctAhorro := pyMul100 (pyDiv ahorro peor.2.1)
      { mejor_dia := some (diasEs mejor.1)
        precio_promedio := validos.map (fun x => (diasEs x.1, x.2.1))
        sugerencia := "💡 Históricamente, " ++ diasEs mejor.1 ++
          " tiene mejores precios ($" ++ formatoMiles mejor.2.1 ++
          "/kg promedio). Ahorras hasta $" ++ formatoMiles ahorro ++
          "/kg (" ++ pctAhorro.formato1 ++ "%) vs " ++ diasEs peor.1 ++ "."
        ahorro_potencial := some ahorro }
    | _, _ => analisisDiaVacio

/-! ## Seasonal anomaly detector (`detectar_patrones_estacionales`) -/

/-- `meses_nombres`: Spanish month names, indexed 1–12 (index 0 unused). -/
def mesesNombres : List String :=
  ["", "Enero", "Febrero", "Marzo", "Abril", "Mayo", "Junio",
   "Julio", "Agosto", "Septiembre", "Octubre", "Noviembre", "Diciembre"]

/-- `meses_nombres[m]`. -/
def nombreMes (m : Nat) : String := mesesNombres.getD m ""

/-- `count` of the `groupby('mes')` aggregation for one month. -/
def conteoMes (s : List Observacion) (p : String) (m : Nat) : Nat :=
  ((dfProducto s p).filter (fun r => r.fecha.month == m)).length

/-- `mean` of the `groupby('mes')` aggregation for one month. -/
def promedioMes (s : List Observacion) (p : String) (m : Nat) : ℚ :=
  promedio (((dfProducto s p).filter (fun r => r.fecha.month == m)).map
    (fun r => r.precio_compra))

/-- The months that survive the `count >= 2` filter, in ascending month
order (pandas `groupby` on an integer key sorts it). -/
def mesesValidos (s : List Observacion) (p : String) : List Nat :=
  ((List.range 12).map (fun i => i + 1)).filter (fun m => 2 ≤ conteoMes s p m)

/-- `promedio_general`: mean of the surviving months' mean prices. -/
def promedioGeneralDe (s : List Observacion) (p : String) : ℚ :=
  promedio ((mesesValidos s p).map (promedioMes s p))

/-- The `patrones` dictionary of `detectar_patrones_estacionales`. -/
structure Patrones where
  meses_caros : List String
  meses_baratos : List String
  patron_detectado : Bool
  descripcion : String
deriving DecidableEq

/-- The initial / insufficient-data `patrones` dictionary. -/
def patronesVacio : Patrones := ⟨[], [], false, ""⟩

/-- `detectar_patrones_estacionales(df_historico, producto)`
(src/app.py): flags months whose mean price deviates more than 15% from
the mean of the surviving monthly means.  The thresholds `1.15`/`0.85`
are taken exactly (the source's float literals differ from these
rationals by under `10⁻¹⁶`; no statement below sits on that boundary). -/
def detectar_patrones_estacionales
    (dfHistorico : List Observacion) (producto : String) : Patrones :=
  if dfHistorico = [] then patronesVacio
  else if (dfProducto dfHistorico producto).length < 12 then patronesVacio
  else if (mesesValidos dfHistorico producto).length < 3 then patronesVacio
  else
    let pg := promedioGeneralDe dfHistorico producto
    let caros := (mesesValidos dfHistorico producto).filter
      (fun m => pg * (23/20) < promedioMes dfHistorico producto m)
    let baratos := (mesesValidos dfHistorico producto).filter
      (fun m => promedioMes dfHistorico producto m < pg * (17/20))
    if caros = [] ∧ baratos = [] then patronesVacio
    else
      let nombresCaros := caros.map nombreMes
      let nombresBaratos := baratos.map nombreMes
      { meses_caros := nombresCaros
        meses_baratos := nombresBaratos
        patron_detectado := true
        descripcion := "📊 Patrones detectados: " ++
          (if nombresCaros ≠ [] then
            "Precios altos en " ++ String.intercalate (", ") nombresCaros ++ ". "
           else "") ++
          (if nombresBaratos ≠ [] then
            "Precios bajos en " ++ String.intercalate (", ") nombresBaratos ++ "."
           else "") }

/-! ## Period-over-period comparator (`analizar_precios_historicos`,
per-bucket records of `analisis['por_semana']`) -/

/-- `obtener_semana_del_mes(fecha)`: `(dia - 1) // 7 + 1`. -/
def semanaDelMes (f : Fecha) : Int := Int.fdiv ((f.day : Int) - 1) 7 + 1

/-- The rows of one period's product series that fall in the
`(mes, semana)` bucket. -/
def cubeta (s : List Observacion) (p : String) (mes semana : Nat) : List Observacion :=
  (dfProducto s p).filter
    (fun r => r.fecha.month == mes && semanaDelMes r.fecha == (semana : Int))

/-- The bucket's mean purchase price, `0` when the bucket is empty (the
source leaves `precio_2025` / `precio_2026` at their `0` initial value;
an empty product series never reaches the mean either way). -/
def precioCubeta (s : List Observacion) (p : String) (mes semana : Nat) : ℚ :=
  if cubeta s p mes semana = [] then 0
  else promedio ((cubeta s p mes semana).map (fun r => r.precio_compra))

/-- One record of `analisis['por_semana']`. -/
structure RegistroSemana where
  mes : Nat
  semana : Nat
  precio_2025 : ℚ
  precio_2026 : ℚ
  diferencia : ℚ
  porcentaje : ℚ
deriving DecidableEq

/-- The record the `M{mes}_S{semana}` key would map to: present exactly
when `precio_2025 > 0 or precio_2026 > 0`. -/
def registroSemana (s2025 s2026 : List Observacion) (p : String)
    (mes semana : Nat) : Option RegistroSemana :=
  let pa := precioCubeta s2025 p mes semana
  let pb := precioCubeta s2026 p mes semana
  if 0 < pa ∨ 0 < pb then
    some ⟨mes, semana, pa, pb, pb - pa, if 0 < pa then (pb - pa) / pa * 100 else 0⟩
  else none

/-- The full `por_semana` table: the loop `for mes in range(1, 13): for
semana in range(1, 6)` in key order. -/
def porSemana (s2025 s2026 : List Observacion) (p : String) : List RegistroSemana :=
  (((List.range 12).map (fun i => i + 1)).map
    (fun mes => (((List.range 5).map (fun i => i + 1)).filterMap
      (fun sem => registroSemana s2025 s2026 p mes sem)))).flatten

/-! ## The specification's qualifying-observation filter -/

/-- Modelled from the spec (§3 data-model invariant, §4.1 Series
Filter, glossary "Qualifying observation"): the exclusion of records
with `purchase_price <= 0` from the series before any aggregate.  No
counterpart exists in `src/app.py`; this definition exists only to be
compared against the code's behaviour. -/
def filtrarCalificadas (s : List Observacion) : List Observacion :=
  s.filter (fun r => 0 < r.precio_compra)

/-! ## Concrete input series used by the witnesses and counterexamples -/

/-- A row of the product under analysis. -/
def obsPl (y : Int) (m d : Nat) (q : ℚ) : Observacion :=
  ⟨⟨y, m, d⟩, "Plátano", q⟩

/-- Two Monday purchases, one of them a zero-price (missing-data) row:
2026-10-12 and 2026-10-19 are both Mondays. -/
def serieLunes : List Observacion :=
  [obsPl 2026 10 12 100, obsPl 2026 10 19 0]

/-- Four positive-price rows on consecutive days. -/
def seriePositiva : List Observacion :=
  [obsPl 2026 10 12 100, obsPl 2026 10 13 100,
   obsPl 2026 10 14 100, obsPl 2026 10 15 100]

/-- Four rows, one of them zero-price: only three qualify. -/
def serieTresCalificadas : List Observacion :=
  [obsPl 2026 1 5 0, obsPl 2026 1 6 100, obsPl 2026 1 7 100, obsPl 2026 1 8 100]

/-- Three rows only. -/
def serieCorta : List Observacion :=
  [obsPl 2026 1 5 100, obsPl 2026 1 6 100, obsPl 2026 1 7 100]

/-- Four rows whose older half is all zero. -/
def serieMitadCero : List Observacion :=
  [obsPl 2026 1 5 0, obsPl 2026 1 6 0, obsPl 2026 1 7 100, obsPl 2026 1 8 100]

/-- Two Monday purchases at the same positive price. -/
def serieDosLunes : List Observacion :=
  [obsPl 2026 10 12 100, obsPl 2026 10 19 100]

/-- Twelve rows over three months: January cheap, February and March
expensive. -/
def serieDoceMeses : List Observacion :=
  [obsPl 2026 1 5 10, obsPl 2026 1 6 10, obsPl 2026 1 7 10, obsPl 2026 1 8 10,
   obsPl 2026 2 5 100, obsPl 2026 2 6 100, obsPl 2026 2 7 100, obsPl 2026 2 8 100,
   obsPl 2026 3 5 100, obsPl 2026 3 6 100, obsPl 2026 3 7 100, obsPl 2026 3 8 100]

/-- Four rows at a negative price (nothing upstream excludes them). -/
def serieNegativa : List Observacion :=
  [obsPl 2026 1 5 (-1), obsPl 2026 1 6 (-1), obsPl 2026 1 7 (-1), obsPl 2026 1 8 (-1)]

/-- Twelve rows over three months, one of them zero-price (eleven
qualifying): January's mean is dragged below the cheap threshold. -/
def serieOnceCalificadas : List Observacion :=
  [obsPl 2026 1 5 0, obsPl 2026 1 6 10, obsPl 2026 1 7 10, obsPl 2026 1 8 10,
   obsPl 2026 2 5 10, obsPl 2026 2 6 10, obsPl 2026 2 7 10, obsPl 2026 2 8 10,
   obsPl 2026 3 5 10, obsPl 2026 3 6 10, obsPl 2026 3 7 10, obsPl 2026 3 8 10]

/-- Twelve rows spread over only two months. -/
def serieDosMeses : List Observacion :=
  [obsPl 2026 1 5 10, obsPl 2026 1 6 10, obsPl 2026 1 7 10,
   obsPl 2026 1 8 10, obsPl 2026 1 9 10, obsPl 2026 1 10 10,
   obsPl 2026 2 5 10, obsPl 2026 2 6 10, obsPl 2026 2 7 10,
   obsPl 2026 2 8 10, obsPl 2026 2 9 10, obsPl 2026 2 10 10]

/-- One period-B row in the (March, week 2) bucket. -/
def seriePeriodoB : List Observacion := [obsPl 2026 3 10 50]


/-! ## Lemmas about the argmin / argmax folds -/

theorem foldlMin_mem {α : Type} (f : α → ℚ) (l : List α) (x : α) :
    l.foldl (fun acc y => if f y < f acc then y else acc) x ∈ x :: l := by
  induction l generalizing x with
  | nil => simp
  | cons y ys ih =>
    have hz : (if f y < f x then y else x) ∈ x :: y :: ys := by
      by_cases hc : f y < f x
      · simp [hc]
      · simp [hc]
    have h := ih (if f y < f x then y else x)
    simp only [List.foldl_cons]
    rcases List.mem_cons.mp h with h1 | h1
    · rw [h1]; exact hz
    · exact List.mem_cons.mpr (Or.inr (List.mem_cons.mpr (Or.inr h1)))

theorem foldlMin_le {α : Type} (f : α → ℚ) (l : List α) (x : α) :
    ∀ b ∈ x :: l, f (l.foldl (fun acc y => if f y < f acc then y else acc) x) ≤ f b := by
  induction l generalizing x with
  | nil => intro b hb; simp at hb; simp [hb]
  | cons y ys ih =>
    intro b hb
    simp only [List.foldl_cons]
    have hstep : f (if f y < f x then y else x) ≤ f x ∧ f (if f y < f x then y else x) ≤ f y := by
      by_cases hc : f y < f x
      · rw [if_pos hc]; exact ⟨le_of_lt hc, le_refl _⟩
      · rw [if_neg hc]; exact ⟨le_refl _, le_of_not_lt hc⟩
    rcases List.mem_cons.mp hb with h1 | h1
    · calc f (ys.foldl _ (if f y < f x then y else x)) ≤ f (if f y < f x then y else x) :=
            ih (if f y < f x then y else x) _ (List.mem_cons_self _ _)
        _ ≤ f b := h1 ▸ hstep.1
    · rcases List.mem_cons.mp h1 with h2 | h2
      · calc f (ys.foldl _ (if f y < f x then y else x)) ≤ f (if f y < f x then y else x) :=
              ih (if f y < f x then y else x) _ (List.mem_cons_self _ _)
          _ ≤ f b := h2 ▸ hstep.2
      · exact ih (if f y < f x then y else x) b (List.mem_cons.mpr (Or.inr h2))

theorem foldlMax_mem {α : Type} (f : α → ℚ) (l : List α) (x : α) :
    l.foldl (fun acc y => if f acc < f y then y else acc) x ∈ x :: l := by
  induction l generalizing x with
  | nil => simp
  | cons y ys ih =>
    have hz : (if f x < f y then y else x) ∈ x :: y :: ys := by
      by_cases hc : f x < f y
      · simp [hc]
      · simp [hc]
    have h := ih (if f x < f y then y else x)
    simp only [List.foldl_cons]
    rcases List.mem_cons.mp h with h1 | h1
    · rw [h1]; exact hz
    · exact List.mem_cons.mpr (Or.inr (List.mem_cons.mpr (Or.inr h1)))

theorem foldlMax_ge {α : Type} (f : α → ℚ) (l : List α) (x : α) :
    ∀ b ∈ x :: l, f b ≤ f (l.foldl (fun acc y => if f acc < f y then y else acc) x) := by
  induction l generalizing x with
  | nil => intro b hb; simp at hb; simp [hb]
  | cons y ys ih =>
    intro b hb
    simp only [List.foldl_cons]
    have hstep : f x ≤ f (if f x < f y then y else x) ∧ f y ≤ f (if f x < f y then y else x) := by
      by_cases hc : f x < f y
      · rw [if_pos hc]; exact ⟨le_of_lt hc, le_refl _⟩
      · rw [if_neg hc]; exact ⟨le_refl _, le_of_not_lt hc⟩
    rcases List.mem_cons.mp hb with h1 | h1
    · calc f b = f x := by rw [h1]
        _ ≤ f (if f x < f y then y else x) := hstep.1
        _ ≤ f (ys.foldl _ (if f x < f y then y else x)) :=
            ih (if f x < f y then y else x) _ (List.mem_cons_self _ _)
    · rcases List.mem_cons.mp h1 with h2 | h2
      · calc f b = f y := by rw [h2]
          _ ≤ f (if f x < f y then y else x) := hstep.2
          _ ≤ f (ys.foldl _ (if f x < f y then y else x)) :=
              ih (if f x < f y then y else x) _ (List.mem_cons_self _ _)
      · exact ih (if f x < f y then y else x) b (List.mem_cons.mpr (Or.inr h2))

theorem primeroMin_mem {α : Type} {f : α → ℚ} {l : List α} {a : α}
    (h : primeroMin f l = some a) : a ∈ l := by
  cases l with
  | nil => simp [primeroMin] at h
  | cons x xs =>
    simp only [primeroMin, Option.some_inj] at h
    exact h ▸ foldlMin_mem f xs x

theorem primeroMin_le {α : Type} {f : α → ℚ} {l : List α} {a : α}
    (h : primeroMin f l = some a) : ∀ b ∈ l, f a ≤ f b := by
  cases l with
  | nil => simp [primeroMin] at h
  | cons x xs =>
    simp only [primeroMin, Option.some_inj] at h
    exact h ▸ foldlMin_le f xs x

theorem primeroMax_mem {α : Type} {f : α → ℚ} {l : List α} {a : α}
    (h : primeroMax f l = some a) : a ∈ l := by
  cases l with
  | nil => simp [primeroMax] at h
  | cons x xs =>
    simp only [primeroMax, Option.some_inj] at h
    exact h ▸ foldlMax_mem f xs x

theorem primeroMax_ge {α : Type} {f : α → ℚ} {l : List α} {a : α}
    (h : primeroMax f l = some a) : ∀ b ∈ l, f b ≤ f a := by
  cases l with
  | nil => simp [primeroMax] at h
  | cons x xs =>
    simp only [primeroMax, Option.some_inj] at h
    exact h ▸ foldlMax_ge f xs x

/-! ## Structural lemmas about the embedded functions -/

theorem dfProducto_nil (p : String) : dfProducto [] p = [] := rfl

theorem s_ne_nil_of_dfProducto {s : List Observacion} {p : String}
    (h : dfProducto s p ≠ []) : s ≠ [] := by
  intro he
  exact h (he ▸ dfProducto_nil p)

theorem dfProducto_ne_nil_of_conteo {s : List Observacion} {p d : String}
    (h : 1 ≤ conteoDia s p d) : dfProducto s p ≠ [] := by
  intro he
  rw [conteoDia, he] at h
  simp at h

theorem mem_diasValidos {s : List Observacion} {p : String} {x : String × ℚ × Nat} :
    x ∈ diasValidos s p ↔
      x.1 ∈ nombresDiasOrdenados ∧ 2 ≤ conteoDia s p x.1 ∧
        x = (x.1, promedioDia s p x.1, conteoDia s p x.1) := by
  constructor
  · intro hx
    obtain ⟨d, hd, he⟩ := List.mem_map.mp hx
    obtain ⟨hd1, hd2⟩ := List.mem_filter.mp hd
    subst he
    simpa using ⟨hd1, of_decide_eq_true hd2⟩
  · intro ⟨h1, h2, h3⟩
    rw [diasValidos, h3]
    exact List.mem_map_of_mem _ (List.mem_filter.mpr ⟨h1, decide_eq_true h2⟩)

theorem analizar_spec (s : List Observacion) (p : String)
    (hv : diasValidos s p ≠ []) :
    ∃ mejor peor,
      primeroMin (fun x => x.2.1) (diasValidos s p) = some mejor ∧
      primeroMax (fun x => x.2.1) (diasValidos s p) = some peor ∧
      analizar_mejor_dia_compra s p =
        { mejor_dia := some (diasEs mejor.1)
          precio_promedio := (diasValidos s p).map (fun x => (diasEs x.1, x.2.1))
          sugerencia := "💡 Históricamente, " ++ diasEs mejor.1 ++
            " tiene mejores precios ($" ++ formatoMiles mejor.2.1 ++
            "/kg promedio). Ahorras hasta $" ++ formatoMiles (peor.2.1 - mejor.2.1) ++
            "/kg (" ++ (pyMul100 (pyDiv (peor.2.1 - mejor.2.1) peor.2.1)).formato1 ++
            "%) vs " ++ diasEs peor.1 ++ "."
          ahorro_potencial := some (peor.2.1 - mejor.2.1) } := by
  obtain ⟨x, hx⟩ := List.exists_mem_of_ne_nil _ hv
  have hx2 := (mem_diasValidos.mp hx).2.1
  have hdf : dfProducto s p ≠ [] := dfProducto_ne_nil_of_conteo (le_trans (by norm_num) hx2)
  have hs : s ≠ [] := s_ne_nil_of_dfProducto hdf
  unfold analizar_mejor_dia_compra
  rw [if_neg hs, if_neg hdf]
  cases hv2 : diasValidos s p with
  | nil => exact absurd hv2 hv
  | cons a l =>
    refine ⟨_, _, rfl, rfl, ?_⟩
    simp only [primeroMin, primeroMax]

theorem mem_ultimosPrecios {s : List Observacion} {p : String} {q : ℚ}
    (h : q ∈ ultimosPrecios s p) : ∃ r ∈ dfProducto s p, q = r.precio_compra := by
  unfold ultimosPrecios at h
  have h2 := List.drop_subset _ _ h
  obtain ⟨r, hr, he⟩ := List.mem_map.mp h2
  rw [ordenarPorFecha, List.mem_insertionSort] at hr
  exact ⟨r, hr, he.symm⟩

theorem length_ultimosPrecios (s : List Observacion) (p : String) :
    (ultimosPrecios s p).length = min (dfProducto s p).length 8 := by
  unfold ultimosPrecios
  simp only [List.length_drop, List.length_map, ordenarPorFecha,
    List.length_insertionSort]
  omega

theorem sumZipNonneg : ∀ (u w : List ℚ), (∀ a ∈ u, 0 ≤ a) → (∀ b ∈ w, 0 ≤ b) →
    0 ≤ (List.zipWith (fun a b => a * b) u w).sum := by
  intro u
  induction u with
  | nil => intro w _ _; simp
  | cons a u2 ih =>
    intro w hu hw
    cases w with
    | nil => simp
    | cons b w2 =>
      simp only [List.zipWith_cons_cons, List.sum_cons]
      have h1 : 0 ≤ a * b :=
        mul_nonneg (hu a (List.mem_cons_self _ _)) (hw b (List.mem_cons_self _ _))
      have h2 : 0 ≤ (List.zipWith (fun a b => a * b) u2 w2).sum :=
        ih w2 (fun x hx => hu x (List.mem_cons.mpr (Or.inr hx)))
          (fun x hx => hw x (List.mem_cons.mpr (Or.inr hx)))
      linarith

theorem sumZipPos (u w : List ℚ) (hu0 : u ≠ []) (hw0 : w ≠ [])
    (hu : ∀ a ∈ u, 0 < a) (hw : ∀ b ∈ w, 0 < b) :
    0 < (List.zipWith (fun a b => a * b) u w).sum := by
  cases u with
  | nil => exact absurd rfl hu0
  | cons a u2 =>
    cases w with
    | nil => exact absurd rfl hw0
    | cons b w2 =>
      simp only [List.zipWith_cons_cons, List.sum_cons]
      have h1 : 0 < a * b :=
        mul_pos (hu a (List.mem_cons_self _ _)) (hw b (List.mem_cons_self _ _))
      have h2 : 0 ≤ (List.zipWith (fun a b => a * b) u2 w2).sum :=
        sumZipNonneg u2 w2 (fun x hx => le_of_lt (hu x (List.mem_cons.mpr (Or.inr hx))))
          (fun x hx => le_of_lt (hw x (List.mem_cons.mpr (Or.inr hx))))
      linarith

theorem sumPos (l : List ℚ) (h0 : l ≠ []) (h : ∀ x ∈ l, 0 < x) : 0 < l.sum := by
  cases l with
  | nil => exact absurd rfl h0
  | cons a l2 =>
    simp only [List.sum_cons]
    have h1 : 0 < a := h a (List.mem_cons_self _ _)
    have h2 : 0 ≤ l2.sum :=
      List.sum_nonneg (fun x hx => le_of_lt (h x (List.mem_cons.mpr (Or.inr hx))))
    linarith

theorem pesosBase_pos : ∀ b ∈ pesosBase, 0 < b := by decide

theorem precioEstimado_pos (s : List Observacion) (p : String)
    (h0 : ultimosPrecios s p ≠ [])
    (hpos : ∀ q ∈ ultimosPrecios s p, 0 < q) :
    0 < precioEstimadoDe s p := by
  unfold precioEstimadoDe
  have hw : ∀ b ∈ pesosBase.take (ultimosPrecios s p).length, 0 < b :=
    fun b hb => pesosBase_pos b (List.take_subset _ _ hb)
  have hw0 : pesosBase.take (ultimosPrecios s p).length ≠ [] := by
    have : 1 ≤ (ultimosPrecios s p).length := List.length_pos.mpr h0
    have hlen : (pesosBase.take (ultimosPrecios s p).length).length =
        min (ultimosPrecios s p).length 8 := by
      simp [List.length_take, pesosBase]
    intro he
    rw [he] at hlen
    simp at hlen
    omega
  exact div_pos (sumZipPos _ _ h0 hw0 hpos hw) (sumPos _ hw0 hw)

theorem predecir_eq (s : List Observacion) (p : String) (hs : s ≠ [])
    (h4 : ¬((dfProducto s p).length < 4))
    (h4u : ¬((ultimosPrecios s p).length < 4)) :
    predecir_precio_proxima_semana s p =
      { precio_estimado := precioEstimadoDe s p
        confianza := confianzaDe s p
        rango_min := max 0 (((precioEstimadoDe s p : ℚ) : ℝ) - desviacionDe s p)
        rango_max := ((precioEstimadoDe s p : ℚ) : ℝ) + desviacionDe s p
        tendencia := tendenciaDe s p
        sugerencia := sugerenciaDe s p
        ultimo_precio := (ultimosPrecios s p).getLast? } := by
  unfold predecir_precio_proxima_semana
  rw [if_neg hs, if_neg h4, if_neg h4u]

theorem predecir_cero_of_lt (s : List Observacion) (p : String)
    (h : (dfProducto s p).length < 4) :
    predecir_precio_proxima_semana s p = prediccionCero := by
  by_cases hs : s = []
  · subst hs
    rfl
  · unfold predecir_precio_proxima_semana
    rw [if_neg hs, if_pos h]

theorem analizar_vacio_of (s : List Observacion) (p : String)
    (hv : diasValidos s p = []) :
    analizar_mejor_dia_compra s p = analisisDiaVacio := by
  by_cases hs : s = []
  · subst hs
    rfl
  · by_cases hdf : dfProducto s p = []
    · unfold analizar_mejor_dia_compra
      rw [if_neg hs, if_pos hdf]
    · unfold analizar_mejor_dia_compra
      rw [if_neg hs, if_neg hdf]
      rw [hv]
      rfl

theorem diasEs_inj : ∀ a ∈ nombresDiasOrdenados, ∀ b ∈ nombresDiasOrdenados,
    diasEs a = diasEs b → a = b := by decide

theorem diasValidos_eq_nil_iff {s : List Observacion} {p : String} :
    diasValidos s p = [] ↔ ∀ d ∈ nombresDiasOrdenados, ¬(2 ≤ conteoDia s p d) := by
  rw [diasValidos, List.map_eq_nil_iff, List.filter_eq_nil_iff]
  simp

theorem mem_mesesValidos {s : List Observacion} {p : String} {m : Nat} :
    m ∈ mesesValidos s p ↔ 1 ≤ m ∧ m ≤ 12 ∧ 2 ≤ conteoMes s p m := by
  rw [mesesValidos, List.mem_filter]
  simp only [List.mem_map, List.mem_range, decide_eq_true_eq]
  constructor
  · intro ⟨⟨i, hi, he⟩, h2⟩
    omega
  · intro ⟨h1, h2, h3⟩
    exact ⟨⟨m - 1, by omega, by omega⟩, h3⟩

theorem detectar_cero_of_lt12 (s : List Observacion) (p : String)
    (h : (dfProducto s p).length < 12) :
    detectar_patrones_estacionales s p = patronesVacio := by
  by_cases hs : s = []
  · subst hs
    rfl
  · unfold detectar_patrones_estacionales
    rw [if_neg hs, if_pos h]

theorem detectar_cero_of_pocosMeses (s : List Observacion) (p : String)
    (h : (mesesValidos s p).length < 3) :
    detectar_patrones_estacionales s p = patronesVacio := by
  by_cases hs : s = []
  · subst hs
    rfl
  · by_cases h12 : (dfProducto s p).length < 12
    · exact detectar_cero_of_lt12 s p h12
    · unfold detectar_patrones_estacionales
      rw [if_neg hs, if_neg h12, if_pos h]

theorem detectar_spec (s : List Observacion) (p : String)
    (h12 : ¬((dfProducto s p).length < 12))
    (h3 : ¬((mesesValidos s p).length < 3)) :
    (detectar_patrones_estacionales s p).meses_caros =
      ((mesesValidos s p).filter
        (fun m => promedioGeneralDe s p * (23/20) < promedioMes s p m)).map nombreMes ∧
    (detectar_patrones_estacionales s p).meses_baratos =
      ((mesesValidos s p).filter
        (fun m => promedioMes s p m < promedioGeneralDe s p * (17/20))).map nombreMes ∧
    ((detectar_patrones_estacionales s p).patron_detectado = true ↔
      ((detectar_patrones_estacionales s p).meses_caros ≠ [] ∨
        (detectar_patrones_estacionales s p).meses_baratos ≠ [])) := by
  have hdf : dfProducto s p ≠ [] := by
    intro he
    rw [he] at h12
    simp at h12
  have hs : s ≠ [] := s_ne_nil_of_dfProducto hdf
  unfold detectar_patrones_estacionales
  rw [if_neg hs, if_neg h12, if_neg h3]
  by_cases hc :
      (mesesValidos s p).filter
        (fun m => promedioGeneralDe s p * (23/20) < promedioMes s p m) = [] ∧
      (mesesValidos s p).filter
        (fun m => promedioMes s p m < promedioGeneralDe s p * (17/20)) = []
  · rw [if_pos hc]
    refine ⟨?_, ?_, ?_⟩
    · rw [hc.1]
      rfl
    · rw [hc.2]
      rfl
    · simp [patronesVacio]
  · rw [if_neg hc]
    refine ⟨rfl, rfl, ?_⟩
    constructor
    · intro _
      rcases not_and_or.mp hc with h | h
      · exact Or.inl (fun hm => h (List.map_eq_nil_iff.mp hm))
      · exact Or.inr (fun hm => h (List.map_eq_nil_iff.mp hm))
    · intro _
      rfl

/-! ## Claim theorems -/

/-- C1, counterexample: `serieLunes` contains a `precio_compra = 0` row,
and removing the non-qualifying rows changes the weekday advisor's
output — the zero-price record contributes to the per-day mean and to
the qualifying count, so the claim that records with
`purchase_price <= 0` contribute to no aggregate and no count is false
of the code. -/
theorem C1_counterexample :
    (∃ r ∈ serieLunes, r.precio_compra ≤ 0) ∧
    analizar_mejor_dia_compra serieLunes ("Plátano") ≠
      analizar_mejor_dia_compra (filtrarCalificadas serieLunes) ("Plátano") := by
  decide

/-- C1, amended: the three analysis cores of src/app.py filter only by
product, never by price, so they agree with the specification's
qualifying-filtered pipeline exactly when every record already has a
positive price. -/
theorem C1_amended (s : List Observacion) (p : String)
    (h : ∀ r ∈ s, 0 < r.precio_compra) :
    predecir_precio_proxima_semana s p =
      predecir_precio_proxima_semana (filtrarCalificadas s) p ∧
    analizar_mejor_dia_compra s p =
      analizar_mejor_dia_compra (filtrarCalificadas s) p ∧
    detectar_patrones_estacionales s p =
      detectar_patrones_estacionales (filtrarCalificadas s) p := by
  have he : filtrarCalificadas s = s :=
    List.filter_eq_self.mpr (fun r hr => decide_eq_true (h r hr))
  rw [he]
  exact ⟨rfl, rfl, rfl⟩

/-- C1, witness: the amended claim instantiated on a concrete
all-positive series. -/
theorem C1_witness :
    (∀ r ∈ seriePositiva, 0 < r.precio_compra) ∧
    (predecir_precio_proxima_semana seriePositiva ("Plátano") =
      predecir_precio_proxima_semana (filtrarCalificadas seriePositiva) ("Plátano") ∧
    analizar_mejor_dia_compra seriePositiva ("Plátano") =
      analizar_mejor_dia_compra (filtrarCalificadas seriePositiva) ("Plátano") ∧
    detectar_patrones_estacionales seriePositiva ("Plátano") =
      detectar_patrones_estacionales (filtrarCalificadas seriePositiva) ("Plátano")) :=
  ⟨by decide, C1_amended seriePositiva ("Plátano") (by decide)⟩

/-- C2, counterexample: `serieTresCalificadas` has only three qualifying
(positive-price) observations, yet the forecaster returns a non-zero
estimate, because the source gates on the row count of the product
filter, not on qualifying observations. -/
theorem C2_counterexample :
    (filtrarCalificadas (dfProducto serieTresCalificadas ("Plátano"))).length < 4 ∧
    (predecir_precio_proxima_semana serieTresCalificadas ("Plátano")).precio_estimado ≠ 0 := by
  exact ⟨by decide, by decide⟩

/-- C2, amended: with "qualifying observation" read as "row of the
product, regardless of price sign", the gate holds: fewer than 4 rows
give the zero-value result (no error is possible: the embedding is a
total function), and exactly 4 rows of positive price give a positive
estimate. -/
theorem C2_amended (s : List Observacion) (p : String) :
    ((dfProducto s p).length < 4 →
      predecir_precio_proxima_semana s p = prediccionCero) ∧
    ((dfProducto s p).length = 4 → (∀ r ∈ dfProducto s p, 0 < r.precio_compra) →
      0 < (predecir_precio_proxima_semana s p).precio_estimado) := by
  constructor
  · exact predecir_cero_of_lt s p
  · intro h4 hpos
    have hlen : (ultimosPrecios s p).length = 4 := by
      rw [length_ultimosPrecios, h4]
      omega
    have hne : ultimosPrecios s p ≠ [] := by
      intro he
      rw [he] at hlen
      simp at hlen
    have hq : ∀ q ∈ ultimosPrecios s p, 0 < q := by
      intro q hq
      obtain ⟨r, hr, he⟩ := mem_ultimosPrecios hq
      exact he ▸ hpos r hr
    have hdf : dfProducto s p ≠ [] := by
      intro he
      rw [he] at h4
      simp at h4
    have hs := s_ne_nil_of_dfProducto hdf
    rw [predecir_eq s p hs (by omega) (by omega)]
    exact precioEstimado_pos s p hne hq

/-- C2, witness: the amended claim instantiated on a three-row series
(zero-value result) and a four-row positive series (positive estimate). -/
theorem C2_witness :
    ((dfProducto serieCorta ("Plátano")).length < 4 ∧
      predecir_precio_proxima_semana serieCorta ("Plátano") = prediccionCero) ∧
    ((dfProducto seriePositiva ("Plátano")).length = 4 ∧
      0 < (predecir_precio_proxima_semana seriePositiva ("Plátano")).precio_estimado) :=
  ⟨⟨by decide, (C2_amended serieCorta ("Plátano")).1 (by decide)⟩,
   ⟨by decide, (C2_amended seriePositiva ("Plátano")).2 (by decide) (by decide)⟩⟩

/-- C8, counterexample: a twelve-row series with one zero-price row has
only eleven qualifying observations, yet the seasonal detector still
reports a pattern — the source counts rows of the product, not
qualifying observations. -/
theorem C8_counterexample :
    (filtrarCalificadas (dfProducto serieOnceCalificadas ("Plátano"))).length = 11 ∧
    (detectar_patrones_estacionales serieOnceCalificadas ("Plátano")).patron_detectado = true := by
  exact ⟨by decide, by decide⟩

/-- C8, amended: with "qualifying observation" read as "row of the
product, regardless of price sign", both gates hold: fewer than 12 rows,
or fewer than 3 months with at least 2 rows each, give the empty
`detected = false` result. -/
theorem C8_amended (s : List Observacion) (p : String) :
    ((dfProducto s p).length < 12 →
      detectar_patrones_estacionales s p = patronesVacio) ∧
    ((mesesValidos s p).length < 3 →
      detectar_patrones_estacionales s p = patronesVacio) :=
  ⟨detectar_cero_of_lt12 s p, detectar_cero_of_pocosMeses s p⟩

/-- C8, witness: the amended claim instantiated on a three-row series
and on a twelve-row series spread over two months. -/
theorem C8_witness :
    ((dfProducto serieCorta ("Plátano")).length < 12 ∧
      detectar_patrones_estacionales serieCorta ("Plátano") = patronesVacio) ∧
    ((mesesValidos serieDosMeses ("Plátano")).length < 3 ∧
      detectar_patrones_estacionales serieDosMeses ("Plátano") = patronesVacio) :=
  ⟨⟨by decide, (C8_amended serieCorta ("Plátano")).1 (by decide)⟩,
   ⟨by decide, (C8_amended serieDosMeses ("Plátano")).2 (by decide)⟩⟩

/-- C9: when both gates pass, `promedio_general` is the unweighted mean
of the surviving months' means, the expensive and cheap lists are
exactly the surviving months beyond the `±15%` thresholds (in calendar
order, as Spanish names), and a pattern is detected iff either list is
non-empty. -/
theorem C9_theorem (s : List Observacion) (p : String)
    (h12 : 12 ≤ (dfProducto s p).length) (h3 : 3 ≤ (mesesValidos s p).length) :
    promedioGeneralDe s p =
      ((mesesValidos s p).map (promedioMes s p)).sum /
        ((mesesValidos s p).length : ℚ) ∧
    (detectar_patrones_estacionales s p).meses_caros =
      ((mesesValidos s p).filter
        (fun m => promedioGeneralDe s p * (23/20) < promedioMes s p m)).map nombreMes ∧
    (detectar_patrones_estacionales s p).meses_baratos =
      ((mesesValidos s p).filter
        (fun m => promedioMes s p m < promedioGeneralDe s p * (17/20))).map nombreMes ∧
    ((detectar_patrones_estacionales s p).patron_detectado = true ↔
      ((detectar_patrones_estacionales s p).meses_caros ≠ [] ∨
        (detectar_patrones_estacionales s p).meses_baratos ≠ [])) := by
  have h := detectar_spec s p (by omega) (by omega)
  refine ⟨?_, h.1, h.2.1, h.2.2⟩
  unfold promedioGeneralDe promedio
  rw [List.length_map]

/-- C9, witness: the theorem instantiated on a twelve-row, three-month
series with one cheap and two expensive months. -/
theorem C9_witness :
    12 ≤ (dfProducto serieDoceMeses ("Plátano")).length ∧
    3 ≤ (mesesValidos serieDoceMeses ("Plátano")).length ∧
    (promedioGeneralDe serieDoceMeses ("Plátano") =
      ((mesesValidos serieDoceMeses ("Plátano")).map (promedioMes serieDoceMeses ("Plátano"))).sum /
        ((mesesValidos serieDoceMeses ("Plátano")).length : ℚ) ∧
    (detectar_patrones_estacionales serieDoceMeses ("Plátano")).meses_caros =
      ((mesesValidos serieDoceMeses ("Plátano")).filter
        (fun m => promedioGeneralDe serieDoceMeses ("Plátano") * (23/20) <
          promedioMes serieDoceMeses ("Plátano") m)).map nombreMes ∧
    (detectar_patrones_estacionales serieDoceMeses ("Plátano")).meses_baratos =
      ((mesesValidos serieDoceMeses ("Plátano")).filter
        (fun m => promedioMes serieDoceMeses ("Plátano") m <
          promedioGeneralDe serieDoceMeses ("Plátano") * (17/20))).map nombreMes ∧
    ((detectar_patrones_estacionales serieDoceMeses ("Plátano")).patron_detectado = true ↔
      ((detectar_patrones_estacionales serieDoceMeses ("Plátano")).meses_caros ≠ [] ∨
        (detectar_patrones_estacionales serieDoceMeses ("Plátano")).meses_baratos ≠ []))) :=
  ⟨by decide, by decide,
    C9_theorem serieDoceMeses ("Plátano") (by decide) (by decide)⟩

/-- C10: every emitted period-comparison record has at least one
non-zero bucket mean, carries the two bucket means verbatim, satisfies
`diferencia = precio_2026 - precio_2025`, and an empty period-A bucket
forces `precio_2025 = 0` and `porcentaje = 0` with no division
performed. -/
theorem C10_theorem (sa sb : List Observacion) (p : String) (mes semana : Nat)
    (r : RegistroSemana) (h : registroSemana sa sb p mes semana = some r) :
    (precioCubeta sa p mes semana ≠ 0 ∨ precioCubeta sb p mes semana ≠ 0) ∧
    r.precio_2025 = precioCubeta sa p mes semana ∧
    r.precio_2026 = precioCubeta sb p mes semana ∧
    r.diferencia = r.precio_2026 - r.precio_2025 ∧
    (cubeta sa p mes semana = [] → r.precio_2025 = 0 ∧ r.porcentaje = 0) := by
  unfold registroSemana at h
  by_cases hc : 0 < precioCubeta sa p mes semana ∨ 0 < precioCubeta sb p mes semana
  · rw [if_pos hc] at h
    have hr := (Option.some_inj.mp h).symm
    subst hr
    refine ⟨?_, rfl, rfl, rfl, ?_⟩
    · rcases hc with h1 | h1
      · exact Or.inl (ne_of_gt h1)
      · exact Or.inr (ne_of_gt h1)
    · intro hcub
      have hpa : precioCubeta sa p mes semana = 0 := by
        rw [precioCubeta, if_pos hcub]
      refine ⟨hpa, ?_⟩
      simp only [hpa]
      norm_num
  · rw [if_neg hc] at h
    exact absurd h (by simp)

/-- C10, witness: the theorem instantiated on an empty period A and a
single period-B row in the (March, week 2) bucket. -/
theorem C10_witness :
    registroSemana [] seriePeriodoB ("Plátano") 3 2 =
      some ⟨3, 2, 0, 50, 50, 0⟩ ∧
    ((precioCubeta [] ("Plátano") 3 2 ≠ 0 ∨
        precioCubeta seriePeriodoB ("Plátano") 3 2 ≠ 0) ∧
      (⟨3, 2, 0, 50, 50, 0⟩ : RegistroSemana).precio_2025 =
        precioCubeta [] ("Plátano") 3 2 ∧
      (⟨3, 2, 0, 50, 50, 0⟩ : RegistroSemana).precio_2026 =
        precioCubeta seriePeriodoB ("Plátano") 3 2 ∧
      (⟨3, 2, 0, 50, 50, 0⟩ : RegistroSemana).diferencia =
        (⟨3, 2, 0, 50, 50, 0⟩ : RegistroSemana).precio_2026 -
          (⟨3, 2, 0, 50, 50, 0⟩ : RegistroSemana).precio_2025 ∧
      (cubeta [] ("Plátano") 3 2 = [] →
        (⟨3, 2, 0, 50, 50, 0⟩ : RegistroSemana).precio_2025 = 0 ∧
        (⟨3, 2, 0, 50, 50, 0⟩ : RegistroSemana).porcentaje = 0)) :=
  ⟨by decide,
    C10_theorem [] seriePeriodoB ("Plátano") 3 2 ⟨3, 2, 0, 50, 50, 0⟩ (by decide)⟩

/-- C7: whenever at least one weekday survives the threshold, the
advisor's saving is exactly the worst surviving mean minus the best
surviving mean, it is non-negative, and it is zero when a single weekday
survives. -/
theorem C7_theorem (s : List Observacion) (p : String)
    (hv : diasValidos s p ≠ []) :
    ∃ mejor peor,
      primeroMin (fun x => x.2.1) (diasValidos s p) = some mejor ∧
      primeroMax (fun x => x.2.1) (diasValidos s p) = some peor ∧
      (analizar_mejor_dia_compra s p).ahorro_potencial =
        some (peor.2.1 - mejor.2.1) ∧
      0 ≤ peor.2.1 - mejor.2.1 ∧
      ((diasValidos s p).length = 1 → peor.2.1 - mejor.2.1 = 0) := by
  obtain ⟨mejor, peor, hmin, hmax, heq⟩ := analizar_spec s p hv
  refine ⟨mejor, peor, hmin, hmax, by rw [heq], ?_, ?_⟩
  · have h1 := primeroMin_le hmin _ (primeroMax_mem hmax)
    linarith
  · intro hlen
    cases hl : diasValidos s p with
    | nil => exact absurd hl hv
    | cons a l =>
      rw [hl] at hmin hmax hlen
      have hl0 : l = [] := by
        simp at hlen
        exact hlen
      subst hl0
      simp [primeroMin, primeroMax] at hmin hmax
      rw [← hmin, ← hmax]
      ring

/-- C7, witness: the theorem instantiated on a series whose only
surviving weekday is Monday. -/
theorem C7_witness :
    diasValidos serieDosLunes ("Plátano") ≠ [] ∧
    (∃ mejor peor,
      primeroMin (fun x => x.2.1) (diasValidos serieDosLunes ("Plátano")) = some mejor ∧
      primeroMax (fun x => x.2.1) (diasValidos serieDosLunes ("Plátano")) = some peor ∧
      (analizar_mejor_dia_compra serieDosLunes ("Plátano")).ahorro_potencial =
        some (peor.2.1 - mejor.2.1) ∧
      0 ≤ peor.2.1 - mejor.2.1 ∧
      ((diasValidos serieDosLunes ("Plátano")).length = 1 → peor.2.1 - mejor.2.1 = 0)) :=
  ⟨by decide, C7_theorem serieDosLunes ("Plátano") (by decide)⟩

/-- C4, counterexample: the advisor and the detector return
Spanish-localized names — the advisor's best day is the string `Lunes`,
which is none of the calendar's locale-independent `day_name()` keys,
and the detector's month lists hold Spanish month names.  Translation
therefore happens inside the core, not at the presentation boundary. -/
theorem C4_counterexample :
    (analizar_mejor_dia_compra serieDosLunes ("Plátano")).mejor_dia = some ("Lunes") ∧
    ("Lunes" ∉ nombresDiasOrdenados) ∧
    ((analizar_mejor_dia_compra serieDosLunes ("Plátano")).precio_promedio).map
      Prod.fst = [("Lunes")] ∧
    (detectar_patrones_estacionales serieDoceMeses ("Plátano")).meses_caros =
      [("Febrero"), ("Marzo")] ∧
    (detectar_patrones_estacionales serieDoceMeses ("Plátano")).meses_baratos =
      [("Enero")] := by
  decide

/-- C4, amended: every weekday name in the advisor's output is the
`dias_es` translation of one of the calendar's grouping keys, and every
month name in the detector's lists is the `meses_nombres` entry of a
surviving month index — localization is applied inside the core
functions. -/
theorem C4_amended (s : List Observacion) (p : String) :
    (∀ x, (analizar_mejor_dia_compra s p).mejor_dia = some x →
      ∃ d ∈ nombresDiasOrdenados, x = diasEs d) ∧
    (∀ k ∈ ((analizar_mejor_dia_compra s p).precio_promedio).map Prod.fst,
      ∃ d ∈ nombresDiasOrdenados, k = diasEs d) ∧
    (∀ n ∈ (detectar_patrones_estacionales s p).meses_caros ++
        (detectar_patrones_estacionales s p).meses_baratos,
      ∃ m ∈ mesesValidos s p, n = nombreMes m) := by
  refine ⟨?_, ?_, ?_⟩
  · intro x hx
    by_cases hv : diasValidos s p = []
    · rw [analizar_vacio_of s p hv] at hx
      exact absurd hx (by simp [analisisDiaVacio])
    · obtain ⟨mejor, peor, hmin, hmax, heq⟩ := analizar_spec s p hv
      rw [heq] at hx
      have hx2 : x = diasEs mejor.1 := (Option.some_inj.mp hx).symm
      have hm := mem_diasValidos.mp (primeroMin_mem hmin)
      exact ⟨mejor.1, hm.1, hx2⟩
  · intro k hk
    by_cases hv : diasValidos s p = []
    · rw [analizar_vacio_of s p hv] at hk
      exact absurd hk (by simp [analisisDiaVacio])
    · obtain ⟨mejor, peor, hmin, hmax, heq⟩ := analizar_spec s p hv
      rw [heq] at hk
      simp only [List.map_map, List.mem_map] at hk
      obtain ⟨x, hx, he⟩ := hk
      have hm := mem_diasValidos.mp hx
      exact ⟨x.1, hm.1, he.symm⟩
  · intro n hn
    by_cases h12 : (dfProducto s p).length < 12
    · rw [detectar_cero_of_lt12 s p h12] at hn
      exact absurd hn (by simp [patronesVacio])
    · by_cases h3 : (mesesValidos s p).length < 3
      · rw [detectar_cero_of_pocosMeses s p h3] at hn
        exact absurd hn (by simp [patronesVacio])
      · obtain ⟨hc, hb, _⟩ := detectar_spec s p h12 h3
        rw [hc, hb] at hn
        rcases List.mem_append.mp hn with h | h
        · obtain ⟨m, hm, he⟩ := List.mem_map.mp h
          exact ⟨m, List.mem_of_mem_filter hm, he.symm⟩
        · obtain ⟨m, hm, he⟩ := List.mem_map.mp h
          exact ⟨m, List.mem_of_mem_filter hm, he.symm⟩

/-- C4, witness: the amended claim instantiated on the two-Monday
series: the advisor's best day is the translation of a calendar key. -/
theorem C4_witness :
    (analizar_mejor_dia_compra serieDosLunes ("Plátano")).mejor_dia = some ("Lunes") ∧
    (∃ d ∈ nombresDiasOrdenados, "Lunes" = diasEs d) :=
  ⟨by decide,
    (C4_amended serieDosLunes ("Plátano")).1 ("Lunes") (by decide)⟩

/-- C6, counterexample: in `serieLunes`, Monday has exactly one
qualifying (positive-price) observation, yet it appears in
`precio_promedio` — the threshold counts all rows of the product, not
qualifying ones. -/
theorem C6_counterexample :
    ((filtrarCalificadas (dfProducto serieLunes ("Plátano"))).filter
      (fun r => diaSemanaEn r.fecha == ("Monday"))).length = 1 ∧
    ((analizar_mejor_dia_compra serieLunes ("Plátano")).precio_promedio).map
      Prod.fst = [("Lunes")] := by
  decide

/-- C6, amended: with "qualifying observation" read as "row of the
product, regardless of price sign": a weekday appears in
`precio_promedio` iff it has at least two rows, the best day is drawn
only from such weekdays, and when no weekday reaches two rows the
advisor returns the empty result. -/
theorem C6_amended (s : List Observacion) (p : String) :
    (∀ d ∈ nombresDiasOrdenados,
      (diasEs d ∈ ((analizar_mejor_dia_compra s p).precio_promedio).map Prod.fst ↔
        2 ≤ conteoDia s p d)) ∧
    (∀ x, (analizar_mejor_dia_compra s p).mejor_dia = some x →
      ∃ d ∈ nombresDiasOrdenados, x = diasEs d ∧ 2 ≤ conteoDia s p d) ∧
    ((∀ d ∈ nombresDiasOrdenados, conteoDia s p d < 2) →
      analizar_mejor_dia_compra s p = analisisDiaVacio) := by
  refine ⟨?_, ?_, ?_⟩
  · intro d hd
    by_cases hv : diasValidos s p = []
    · rw [analizar_vacio_of s p hv]
      simp only [analisisDiaVacio, List.map_nil, List.not_mem_nil, false_iff]
      exact fun h2 => (diasValidos_eq_nil_iff.mp hv d hd) h2
    · obtain ⟨mejor, peor, hmin, hmax, heq⟩ := analizar_spec s p hv
      rw [heq]
      simp only [List.map_map, List.mem_map, Function.comp]
      constructor
      · intro ⟨x, hx, he⟩
        have hm := mem_diasValidos.mp hx
        have : x.1 = d := diasEs_inj x.1 hm.1 d hd he
        exact this ▸ hm.2.1
      · intro h2
        exact ⟨(d, promedioDia s p d, conteoDia s p d),
          mem_diasValidos.mpr ⟨hd, h2, rfl⟩, rfl⟩
  · intro x hx
    by_cases hv : diasValidos s p = []
    · rw [analizar_vacio_of s p hv] at hx
      exact absurd hx (by simp [analisisDiaVacio])
    · obtain ⟨mejor, peor, hmin, hmax, heq⟩ := analizar_spec s p hv
      rw [heq] at hx
      have hx2 : x = diasEs mejor.1 := (Option.some_inj.mp hx).symm
      have hm := mem_diasValidos.mp (primeroMin_mem hmin)
      exact ⟨mejor.1, hm.1, hx2, hm.2.1⟩
  · intro hall
    refine analizar_vacio_of s p (diasValidos_eq_nil_iff.mpr ?_)
    intro d hd
    exact Nat.not_le.mpr (hall d hd)

/-- C6, witness: the amended claim instantiated on the two-Monday
series at the weekday Monday. -/
theorem C6_witness :
    ("Monday" ∈ nombresDiasOrdenados) ∧
    (diasEs ("Monday") ∈
      ((analizar_mejor_dia_compra serieDosLunes ("Plátano")).precio_promedio).map
        Prod.fst ↔
      2 ≤ conteoDia serieDosLunes ("Plátano") ("Monday")) :=
  ⟨by decide,
    (C6_amended serieDosLunes ("Plátano")).1 ("Monday") (by decide)⟩

/-- C3, counterexample: on the window `[0, 0, 100, 100]` the older half
mean is `0` and the trend comes out `subida` (the float division yields
`+inf`, which exceeds the `10` threshold), not `estable` as the claim
requires whenever the older mean is zero. -/
theorem C3_counterexample :
    promedio ((ultimosPrecios serieMitadCero ("Plátano")).take
      ((ultimosPrecios serieMitadCero ("Plátano")).length / 2)) = 0 ∧
    (predecir_precio_proxima_semana serieMitadCero ("Plátano")).tendencia =
      Tendencia.subida ∧
    Tendencia.subida ≠ Tendencia.estable := by
  decide

/-- C3, amended: the trend is the half-split percent-change rule with
the `+10` / `-10` thresholds; when the older mean is zero no fault
occurs, but the label follows the sign of the recent mean (`+inf` gives
`subida`, `-inf` gives `bajada`, `nan` gives `estable`) rather than
being unconditionally `estable`. -/
theorem C3_amended (s : List Observacion) (p : String) (a r : ℚ)
    (h : 4 ≤ (dfProducto s p).length)
    (ha : a = promedio ((ultimosPrecios s p).take ((ultimosPrecios s p).length / 2)))
    (hr : r = promedio ((ultimosPrecios s p).drop ((ultimosPrecios s p).length / 2))) :
    (predecir_precio_proxima_semana s p).tendencia =
      (if a = 0 then
        (if 0 < r then Tendencia.subida
         else if r < 0 then Tendencia.bajada
         else Tendencia.estable)
      else if 10 < (r - a) / a * 100 then Tendencia.subida
      else if (r - a) / a * 100 < -10 then Tendencia.bajada
      else Tendencia.estable) := by
  have hlen4 : 4 ≤ (ultimosPrecios s p).length := by
    rw [length_ultimosPrecios]
    omega
  have hdf : dfProducto s p ≠ [] := by
    intro he
    rw [he] at h
    simp at h
  have hs := s_ne_nil_of_dfProducto hdf
  rw [predecir_eq s p hs (by omega) (by omega)]
  dsimp only
  unfold tendenciaDe
  rw [if_pos hlen4]
  unfold diferenciaPctDe
  dsimp only
  rw [← ha, ← hr]
  by_cases hA : a = 0
  · rw [if_pos hA]
    subst hA
    rcases lt_trichotomy 0 r with hR | hR | hR
    · have hdv : pyDiv (r - 0) 0 = PyF.pinf := by
        rw [sub_zero]
        unfold pyDiv
        rw [if_neg (by simp), if_pos hR]
      rw [hdv]
      show Tendencia.subida = _
      rw [if_pos hR]
    · have hdv : pyDiv (r - 0) 0 = PyF.nan := by
        rw [sub_zero, ← hR]
        unfold pyDiv
        rw [if_neg (by simp), if_neg (lt_irrefl 0), if_neg (lt_irrefl 0)]
      rw [hdv]
      show Tendencia.estable = _
      rw [if_neg (by rw [← hR]; exact lt_irrefl 0),
        if_neg (by rw [← hR]; exact lt_irrefl 0)]
    · have hdv : pyDiv (r - 0) 0 = PyF.ninf := by
        rw [sub_zero]
        unfold pyDiv
        rw [if_neg (by simp), if_neg (not_lt_of_gt hR), if_pos hR]
      rw [hdv]
      show Tendencia.bajada = _
      rw [if_neg (not_lt_of_gt hR), if_pos hR]
  · rw [if_neg hA]
    have hdv : pyDiv (r - a) a = PyF.fin ((r - a) / a) := by
      unfold pyDiv
      rw [if_pos hA]
    rw [hdv]
    simp only [pyMul100, PyF.gtB, PyF.ltB, decide_eq_true_eq]

/-- C3, witness: the amended claim instantiated on a flat positive
window (both half means 100, percent change 0, trend `estable`). -/
theorem C3_witness :
    4 ≤ (dfProducto seriePositiva ("Plátano")).length ∧
    (predecir_precio_proxima_semana seriePositiva ("Plátano")).tendencia =
      (if (100:ℚ) = 0 then
        (if 0 < (100:ℚ) then Tendencia.subida
         else if (100:ℚ) < 0 then Tendencia.bajada
         else Tendencia.estable)
      else if 10 < ((100:ℚ) - 100) / 100 * 100 then Tendencia.subida
      else if ((100:ℚ) - 100) / 100 * 100 < -10 then Tendencia.bajada
      else Tendencia.estable) :=
  ⟨by decide,
    C3_amended seriePositiva ("Plátano") 100 100 (by decide) (by decide) (by decide)⟩

/-- C5, counterexample: with four `-1`-priced rows (nothing upstream
excludes non-positive prices), the estimate is `-1 ≠ 0` but
`rango_min = max(0, -1 - 0) = 0` is not `≤` the estimate, so the band
invariant fails for a non-zero (negative) estimate. -/
theorem C5_counterexample :
    (predecir_precio_proxima_semana serieNegativa ("Plátano")).precio_estimado ≠ 0 ∧
    ¬((predecir_precio_proxima_semana serieNegativa ("Plátano")).rango_min ≤
        ((predecir_precio_proxima_semana serieNegativa ("Plátano")).precio_estimado : ℝ)) := by
  constructor
  · decide
  · rw [predecir_eq serieNegativa ("Plátano") (by decide) (by decide) (by decide)]
    show ¬(max 0 (((precioEstimadoDe serieNegativa ("Plátano") : ℚ) : ℝ) -
        desviacionDe serieNegativa ("Plátano")) ≤
      ((precioEstimadoDe serieNegativa ("Plátano") : ℚ) : ℝ))
    have hv : varianzaDe serieNegativa ("Plátano") = 0 := by decide
    have he : precioEstimadoDe serieNegativa ("Plátano") = -1 := by decide
    simp only [desviacionDe, hv, he]
    push_cast
    rw [Real.sqrt_zero]
    norm_num

/-- C5, amended: whenever the estimate is positive (rather than merely
non-zero), the band is `range_low = max(0, estimate - stddev)`,
`range_high = estimate + stddev` for the non-negative window standard
deviation, and `0 ≤ range_low ≤ estimate ≤ range_high`. -/
theorem C5_amended (s : List Observacion) (p : String)
    (h : 0 < (predecir_precio_proxima_semana s p).precio_estimado) :
    (0:ℝ) ≤ (predecir_precio_proxima_semana s p).rango_min ∧
    (predecir_precio_proxima_semana s p).rango_min ≤
      ((predecir_precio_proxima_semana s p).precio_estimado : ℝ) ∧
    ((predecir_precio_proxima_semana s p).precio_estimado : ℝ) ≤
      (predecir_precio_proxima_semana s p).rango_max ∧
    ∃ d : ℝ, 0 ≤ d ∧
      (predecir_precio_proxima_semana s p).rango_min =
        max 0 (((predecir_precio_proxima_semana s p).precio_estimado : ℝ) - d) ∧
      (predecir_precio_proxima_semana s p).rango_max =
        ((predecir_precio_proxima_semana s p).precio_estimado : ℝ) + d := by
  by_cases hs : s = []
  · subst hs
    have hz : predecir_precio_proxima_semana [] p = prediccionCero := rfl
    rw [hz] at h
    norm_num [prediccionCero] at h
  · by_cases h4 : (dfProducto s p).length < 4
    · rw [predecir_cero_of_lt s p h4] at h
      norm_num [prediccionCero] at h
    · by_cases h4u : (ultimosPrecios s p).length < 4
      · have hz : predecir_precio_proxima_semana s p = prediccionCero := by
          unfold predecir_precio_proxima_semana
          rw [if_neg hs, if_neg h4, if_pos h4u]
        rw [hz] at h
        norm_num [prediccionCero] at h
      · rw [predecir_eq s p hs h4 h4u] at h ⊢
        dsimp only at h ⊢
        have hd : (0:ℝ) ≤ desviacionDe s p := Real.sqrt_nonneg _
        have hq : (0:ℝ) < ((precioEstimadoDe s p : ℚ) : ℝ) := by
          exact_mod_cast h
        refine ⟨le_max_left _ _, max_le (le_of_lt hq) (by linarith), by linarith,
          desviacionDe s p, hd, rfl, rfl⟩

/-- C5, witness: the amended claim instantiated on a four-row positive
series (estimate 100, standard deviation 0). -/
theorem C5_witness :
    0 < (predecir_precio_proxima_semana seriePositiva ("Plátano")).precio_estimado ∧
    ((0:ℝ) ≤ (predecir_precio_proxima_semana seriePositiva ("Plátano")).rango_min ∧
      (predecir_precio_proxima_semana seriePositiva ("Plátano")).rango_min ≤
        ((predecir_precio_proxima_semana seriePositiva ("Plátano")).precio_estimado : ℝ) ∧
      ((predecir_precio_proxima_semana seriePositiva ("Plátano")).precio_estimado : ℝ) ≤
        (predecir_precio_proxima_semana seriePositiva ("Plátano")).rango_max ∧
      ∃ d : ℝ, 0 ≤ d ∧
        (predecir_precio_proxima_semana seriePositiva ("Plátano")).rango_min =
          max 0 (((predecir_precio_proxima_semana seriePositiva ("Plátano")).precio_estimado : ℝ) - d) ∧
        (predecir_precio_proxima_semana seriePositiva ("Plátano")).rango_max =
          ((predecir_precio_proxima_semana seriePositiva ("Plátano")).precio_estimado : ℝ) + d) :=
  ⟨by decide, C5_amended seriePositiva ("Plátano") (by decide)⟩
